import Mathlib

/-!
Shallow embedding of the nmeilick/go-ui terminal-widget library.

The repository provides four interactive widgets (List, Picker, TextInput,
TextArea) built on the bubbletea framework, plus a shared outcome resolver
`ErrorOrValidate` in the `ui` package.  Each widget is a bubbletea model whose
`Update` method reacts to key events; returning the `tea.Quit` command ends the
run loop.  We embed each widget's state as a structure with an extra `terminal`
field recording that `tea.Quit` was returned; the host runner delivers no
further events to a terminated widget, which is modelled by the guard
`if m.terminal then m` at the head of each transition function.

Text editing performed by the external bubbles `textinput`/`textarea`
collaborators is out of scope (a spec non-goal); those collaborators never
touch the `canceled`/`quit` flags, so delegated keys leave our embedded state
unchanged except where noted.
-/

namespace GoUI

/-! ### Character-level string helpers

Embeddings of the Go standard-library functions the widgets call:
`strings.Split(s, "\n")`, `strings.TrimSpace`, and `strings.Join(lines, "\n")`.
They are written by structural recursion on the character list so that they
evaluate inside the kernel.
-/

/-- Embedding of Go `strings.Split(s, "\n")` on a character list: splits at
every newline character; always returns a non-empty list of fields. -/
def splitNL : List Char → List (List Char)
  | [] => [[]]
  | c :: cs =>
    if c = '\n' then [] :: splitNL cs
    else
      let r := splitNL cs
      (c :: r.headD []) :: r.tail

/-- Embedding of Go `strings.TrimSpace`: drops leading and trailing whitespace
characters from a line. -/
def trimSpace (l : List Char) : List Char :=
  ((l.dropWhile Char.isWhitespace).reverse.dropWhile Char.isWhitespace).reverse

/-- Embedding of Go `strings.Join(lines, "\n")` on character lists. -/
def joinNL : List (List Char) → List Char
  | [] => []
  | [l] => l
  | l :: ls => l ++ '\n' :: joinNL ls

theorem splitNL_ne_nil (cs : List Char) : splitNL cs ≠ [] := by
  cases cs with
  | nil => simp [splitNL]
  | cons c cs =>
    unfold splitNL
    split <;> simp

/-! ### The `ui` package: outcome protocol -/

/-- Errors visible to callers of the run loop: the two sentinels declared in
`ui.go` plus an opaque runtime failure from the underlying event loop. -/
inductive Err where
  | canceledError
  | quitError
  | runFailure (msg : String)
deriving DecidableEq

/-- Embedding of the Go interface `StandardModel { Canceled() bool; Quit() bool }`:
just the two observable flags. -/
structure StandardModel where
  Canceled : Bool
  Quit : Bool
deriving DecidableEq

/-- Embedding of `ui.ErrorOrValidate` (ui.go): returns the raw error when
non-nil, else `CanceledError` when `m.Canceled()`, else `QuitError` when
`m.Quit()`, else nil. -/
def ErrorOrValidate (err : Option Err) (m : StandardModel) : Option Err :=
  match err with
  | some e => some e
  | none =>
    if m.Canceled then some Err.canceledError
    else if m.Quit then some Err.quitError
    else none

/-! ### The `pick` package: Picker widget -/

namespace Pick

/-- Embedding of `pick.Model`: observable fields of the Picker widget.
Styling/format fields (label, lipgloss styles, horizontal flag) only affect
`View` and are omitted.  `terminal` records that `tea.Quit` was returned. -/
structure Model where
  items : List String
  cancelable : Bool
  quitable : Bool
  selectedIdx : Int
  canceled : Bool
  quit : Bool
  terminal : Bool
deriving DecidableEq

/-- Embedding of `pick.New`: first item selected, cancelable and quitable by
default, flags clear, running. -/
def New (items : List String) : Model :=
  { items := items
    cancelable := true
    quitable := true
    selectedIdx := 0
    canceled := false
    quit := false
    terminal := false }

/-- Embedding of `pick.Model.WithSelectedIndex`: clamps the argument to
`[0, len(items)-1]` before storing it. -/
def Model.WithSelectedIndex (m : Model) (i : Int) : Model :=
  let j : Int :=
    if i < 0 then 0
    else if i > (m.items.length : Int) - 1 then (m.items.length : Int) - 1
    else i
  { m with selectedIdx := j }

/-- Embedding of `pick.Model.WithCancel`. -/
def Model.WithCancel (m : Model) (b : Bool) : Model := { m with cancelable := b }

/-- Embedding of `pick.Model.WithQuit`. -/
def Model.WithQuit (m : Model) (b : Bool) : Model := { m with quitable := b }

/-- Embedding of `pick.Model.SelectedItem`: the selected item when the index is
in bounds, the empty string otherwise. -/
def Model.SelectedItem (m : Model) : String :=
  if 0 ≤ m.selectedIdx ∧ m.selectedIdx < (m.items.length : Int) then
    m.items.getD m.selectedIdx.toNat ""
  else ""

/-- Embedding of `pick.Model.Update` for key messages.  Keys `up`/`j`/`left`
move the selection backwards and `down`/`k`/`right` forwards, both with
wraparound; `enter` confirms; `esc` cancels when cancelable; `ctrl+c` quits
when quitable.  All other keys are ignored. -/
def Model.Update (m : Model) (key : String) : Model :=
  if m.terminal then m
  else if key = "up" ∨ key = "j" ∨ key = "left" then
    let i := m.selectedIdx - 1
    { m with selectedIdx := if i < 0 then (m.items.length : Int) - 1 else i }
  else if key = "down" ∨ key = "k" ∨ key = "right" then
    let i := m.selectedIdx + 1
    { m with selectedIdx := if (m.items.length : Int) ≤ i then 0 else i }
  else if key = "enter" then
    { m with canceled := false, quit := false, terminal := true }
  else if key = "esc" then
    if m.cancelable then
      { m with selectedIdx := -1, canceled := true, quit := false, terminal := true }
    else m
  else if key = "ctrl+c" then
    if m.quitable then
      { m with selectedIdx := -1, canceled := false, quit := true, terminal := true }
    else m
  else m

/-- Feeding a whole key sequence to the widget, as the host runner does. -/
def Model.run (m : Model) (keys : List String) : Model :=
  keys.foldl Model.Update m

end Pick

/-! ### The `list` package: List widget

The List widget wraps the external bubbles `list.Model` collaborator, which
owns the cursor.  The repository code reads the cursor through `List.Index()`
and moves it through `List.Select(i)` and delegated key events.  We embed the
cursor as an `index` field; its movement under delegated keys is not
repository code, so it is modelled from the spec (see `bubblesNav`).
-/

namespace ListW

/-- Embedding of `list.Model` (the version carrying cancelable/quitable flags):
`itemCount` is the length of the wrapped bubbles list, `index` its cursor
(`List.Index()`), and `selectedIdx` the snapshot field the repository code
writes on termination.  `terminal` records that `tea.Quit` was returned. -/
structure Model where
  itemCount : Nat
  index : Int
  selectedIdx : Int
  cancelable : Bool
  quitable : Bool
  canceled : Bool
  quit : Bool
  terminal : Bool
deriving DecidableEq

/-- Embedding of `list.New`: cancelable and quitable by default; the bubbles
cursor starts at 0 and the snapshot field is the Go zero value 0. -/
def New (itemCount : Nat) : Model :=
  { itemCount := itemCount
    index := 0
    selectedIdx := 0
    cancelable := true
    quitable := true
    canceled := false
    quit := false
    terminal := false }

/-- Embedding of `list.Model.WithSelectedIndex`: clamps the argument to
`[0, itemCount-1]` and passes it to `List.Select`, i.e. it moves the bubbles
cursor, not the `selectedIdx` snapshot field. -/
def Model.WithSelectedIndex (m : Model) (i : Int) : Model :=
  let j : Int :=
    if i < 0 then 0
    else if i > (m.itemCount : Int) - 1 then (m.itemCount : Int) - 1
    else i
  { m with index := j }

/-- Embedding of `list.Model.WithCancel`. -/
def Model.WithCancel (m : Model) (b : Bool) : Model := { m with cancelable := b }

/-- Embedding of `list.Model.WithQuit`. -/
def Model.WithQuit (m : Model) (b : Bool) : Model := { m with quitable := b }

/-- Modelled from the spec: cursor movement of the external bubbles list
collaborator, which is not part of this repository.  The spec states that the
List widget delegates navigation to this collaborator and that, unlike the
Picker, it does not wrap; the cursor stays within bounds. -/
def bubblesNav (itemCount : Nat) (index : Int) (key : String) : Int :=
  if key = "up" then (if 0 < index then index - 1 else index)
  else if key = "down" then
    (if index < (itemCount : Int) - 1 then index + 1 else index)
  else index

/-- Embedding of `list.Model.Update` for key messages: `enter` snapshots the
bubbles cursor into `selectedIdx` and confirms; `esc` cancels when cancelable;
`ctrl+c` quits when quitable (setting both flags); everything else falls
through to the external bubbles list, modelled by `bubblesNav`. -/
def Model.Update (m : Model) (key : String) : Model :=
  if m.terminal then m
  else if key = "enter" then
    { m with canceled := false, quit := false, selectedIdx := m.index, terminal := true }
  else if key = "esc" then
    if m.cancelable then
      { m with selectedIdx := -1, canceled := true, quit := false, terminal := true }
    else { m with index := bubblesNav m.itemCount m.index key }
  else if key = "ctrl+c" then
    if m.quitable then
      { m with selectedIdx := -1, canceled := true, quit := true, terminal := true }
    else { m with index := bubblesNav m.itemCount m.index key }
  else { m with index := bubblesNav m.itemCount m.index key }

/-- Feeding a whole key sequence to the widget, as the host runner does. -/
def Model.run (m : Model) (keys : List String) : Model :=
  keys.foldl Model.Update m

end ListW

/-! ### The `input` package: TextInput widget -/

namespace Input

/-- Embedding of `input.Model` (the version carrying cancelable/quitable
flags): the text lives in the external bubbles `textinput` collaborator and is
embedded as `value`; presentation fields are omitted. -/
structure Model where
  value : String
  cancelable : Bool
  quitable : Bool
  canceled : Bool
  quit : Bool
  terminal : Bool
deriving DecidableEq

/-- Embedding of `input.New`: cancelable and quitable by default, flags clear,
running. -/
def New (value : String) : Model :=
  { value := value
    cancelable := true
    quitable := true
    canceled := false
    quit := false
    terminal := false }

/-- Embedding of `input.Model.WithCancel`. -/
def Model.WithCancel (m : Model) (b : Bool) : Model := { m with cancelable := b }

/-- Embedding of `input.Model.WithQuit`. -/
def Model.WithQuit (m : Model) (b : Bool) : Model := { m with quitable := b }

/-- Embedding of `input.Model.Update` for key messages.  In the source neither
`esc` nor `ctrl+c` consults the `cancelable`/`quitable` flags: `esc` always
cancels and `ctrl+c` always sets both flags.  Other keys are delegated to the
external bubbles textinput, which edits the text only; the edit itself is out
of scope, so the embedded state is unchanged. -/
def Model.Update (m : Model) (key : String) : Model :=
  if m.terminal then m
  else if key = "enter" then
    { m with canceled := false, quit := false, terminal := true }
  else if key = "esc" then
    { m with canceled := true, quit := false, terminal := true }
  else if key = "ctrl+c" then
    { m with canceled := true, quit := true, terminal := true }
  else m

/-- Feeding a whole key sequence to the widget, as the host runner does. -/
def Model.run (m : Model) (keys : List String) : Model :=
  keys.foldl Model.Update m

end Input

/-! ### The `textarea` package: TextArea widget -/

namespace Textarea

/-- Embedding of `textarea.Model`: the text lives in the external bubbles
`textarea` collaborator and is embedded as `value`. -/
structure Model where
  value : String
  cancelable : Bool
  quitable : Bool
  canceled : Bool
  quit : Bool
  terminal : Bool
deriving DecidableEq

/-- Embedding of `textarea.New`: cancelable and quitable by default, flags
clear, running. -/
def New (value : String) : Model :=
  { value := value
    cancelable := true
    quitable := true
    canceled := false
    quit := false
    terminal := false }

/-- Embedding of `textarea.Model.WithCancel`. -/
def Model.WithCancel (m : Model) (b : Bool) : Model := { m with cancelable := b }

/-- Embedding of `textarea.Model.WithQuit`. -/
def Model.WithQuit (m : Model) (b : Bool) : Model := { m with quitable := b }

/-- Embedding of `textarea.Model.Update` for key messages.  On `enter` the
value is split into lines, each line is trimmed, and the trimmed lines are
rejoined and stored back; the widget then confirms exactly when the (trimmed)
last line is empty.  In the source neither `esc` nor `ctrl+c` consults the
`cancelable`/`quitable` flags: `esc` always cancels and `ctrl+c` always sets
both flags.  Other keys are delegated to the external bubbles textarea, which
edits the text only; the edit itself is out of scope, so the embedded state is
unchanged. -/
def Model.Update (m : Model) (key : String) : Model :=
  if m.terminal then m
  else if key = "enter" then
    let lines := (splitNL m.value.data).map trimSpace
    let m' := { m with value := String.mk (joinNL lines) }
    if 0 < lines.length ∧ lines.getLastD [] = [] then
      { m' with canceled := false, quit := false, terminal := true }
    else m'
  else if key = "esc" then
    { m with canceled := true, quit := false, terminal := true }
  else if key = "ctrl+c" then
    { m with canceled := true, quit := true, terminal := true }
  else m

/-- Feeding a whole key sequence to the widget, as the host runner does. -/
def Model.run (m : Model) (keys : List String) : Model :=
  keys.foldl Model.Update m

end Textarea

/-! ### Invariant lemmas

Flag discipline and index bounds preserved by every transition, and hence by
every run.
-/

namespace ListW

/-- Flag discipline maintained by the List transition function: while running
both flags are clear, and the quit flag is only ever set together with the
canceled flag. -/
def FlagInv (m : Model) : Prop :=
  (m.terminal = false → m.canceled = false ∧ m.quit = false) ∧
  (m.quit = true → m.canceled = true)

/-- Cursor bound maintained by the List transition function while running. -/
def IdxInv (m : Model) : Prop :=
  m.terminal = false → 0 ≤ m.index ∧ m.index < (m.itemCount : Int)

theorem lw_run_cons (m : Model) (k : String) (ks : List String) :
    m.run (k :: ks) = (m.Update k).run ks := rfl

theorem bubblesNav_bounds (n : Nat) (i : Int) (k : String) (hn : 0 < n)
    (h : 0 ≤ i ∧ i < (n : Int)) :
    0 ≤ bubblesNav n i k ∧ bubblesNav n i k < (n : Int) := by
  unfold bubblesNav
  repeat' split
  all_goals omega

/-- Every List transition is one of: inert, confirm, cancel, quit, or a
delegated cursor move. -/
theorem lw_update_cases (m : Model) (k : String) :
    m.Update k = m ∨
    m.Update k = { m with canceled := false, quit := false,
                          selectedIdx := m.index, terminal := true } ∨
    m.Update k = { m with selectedIdx := -1, canceled := true, quit := false,
                          terminal := true } ∨
    m.Update k = { m with selectedIdx := -1, canceled := true, quit := true,
                          terminal := true } ∨
    m.Update k = { m with index := bubblesNav m.itemCount m.index k } := by
  unfold Model.Update
  split
  · exact Or.inl rfl
  split
  · exact Or.inr (Or.inl rfl)
  split
  · split
    · exact Or.inr (Or.inr (Or.inl rfl))
    · exact Or.inr (Or.inr (Or.inr (Or.inr rfl)))
  split
  · split
    · exact Or.inr (Or.inr (Or.inr (Or.inl rfl)))
    · exact Or.inr (Or.inr (Or.inr (Or.inr rfl)))
  · exact Or.inr (Or.inr (Or.inr (Or.inr rfl)))

theorem lw_update_itemCount (m : Model) (k : String) :
    (m.Update k).itemCount = m.itemCount := by
  rcases lw_update_cases m k with he | he | he | he | he <;> rw [he]

theorem lw_flagInv_update (m : Model) (k : String) (h : FlagInv m) :
    FlagInv (m.Update k) := by
  unfold FlagInv at *
  rcases lw_update_cases m k with he | he | he | he | he <;> rw [he] <;> simp_all

theorem lw_flagInv_run (m : Model) (keys : List String) (h : FlagInv m) :
    FlagInv (m.run keys) := by
  induction keys generalizing m with
  | nil => exact h
  | cons k ks ih => exact lw_run_cons m k ks ▸ ih (m.Update k) (lw_flagInv_update m k h)

theorem lw_idxInv_update (m : Model) (k : String) (hn : 0 < m.itemCount)
    (h : IdxInv m) : IdxInv (m.Update k) := by
  unfold IdxInv at *
  rcases lw_update_cases m k with he | he | he | he | he <;> rw [he] <;> intro ht
  · exact h ht
  · simp at ht
  · simp at ht
  · simp at ht
  · exact bubblesNav_bounds m.itemCount m.index k hn (h ht)

theorem lw_idxInv_run (m : Model) (keys : List String) (hn : 0 < m.itemCount)
    (h : IdxInv m) : IdxInv (m.run keys) := by
  induction keys generalizing m with
  | nil => exact h
  | cons k ks ih =>
    exact lw_run_cons m k ks ▸
      ih (m.Update k) (lw_update_itemCount m k ▸ hn) (lw_idxInv_update m k hn h)

end ListW

namespace Pick

/-- Flag discipline maintained by the Picker transition function: while
running both flags are clear, and the two flags are never set together. -/
def FlagInv (m : Model) : Prop :=
  (m.terminal = false → m.canceled = false ∧ m.quit = false) ∧
  ¬(m.canceled = true ∧ m.quit = true)

/-- Selection bound maintained by the Picker transition function while
running. -/
def IdxInv (m : Model) : Prop :=
  m.terminal = false → 0 ≤ m.selectedIdx ∧ m.selectedIdx < (m.items.length : Int)

theorem pk_run_cons (m : Model) (k : String) (ks : List String) :
    m.run (k :: ks) = (m.Update k).run ks := rfl

/-- Every Picker transition is one of: inert, a backwards move, a forwards
move, confirm, cancel, or quit. -/
theorem pk_update_cases (m : Model) (k : String) :
    m.Update k = m ∨
    m.Update k = { m with selectedIdx :=
        if m.selectedIdx - 1 < 0 then (m.items.length : Int) - 1
        else m.selectedIdx - 1 } ∨
    m.Update k = { m with selectedIdx :=
        if (m.items.length : Int) ≤ m.selectedIdx + 1 then 0
        else m.selectedIdx + 1 } ∨
    m.Update k = { m with canceled := false, quit := false, terminal := true } ∨
    m.Update k = { m with selectedIdx := -1, canceled := true, quit := false,
                          terminal := true } ∨
    m.Update k = { m with selectedIdx := -1, canceled := false, quit := true,
                          terminal := true } := by
  unfold Model.Update
  split
  · exact Or.inl rfl
  split
  · exact Or.inr (Or.inl rfl)
  split
  · exact Or.inr (Or.inr (Or.inl rfl))
  split
  · exact Or.inr (Or.inr (Or.inr (Or.inl rfl)))
  split
  · split
    · exact Or.inr (Or.inr (Or.inr (Or.inr (Or.inl rfl))))
    · exact Or.inl rfl
  split
  · split
    · exact Or.inr (Or.inr (Or.inr (Or.inr (Or.inr rfl))))
    · exact Or.inl rfl
  · exact Or.inl rfl

theorem pk_update_items (m : Model) (k : String) : (m.Update k).items = m.items := by
  rcases pk_update_cases m k with he | he | he | he | he | he <;> rw [he]

theorem pk_flagInv_update (m : Model) (k : String) (h : FlagInv m) :
    FlagInv (m.Update k) := by
  unfold FlagInv at *
  rcases pk_update_cases m k with he | he | he | he | he | he <;> rw [he] <;> simp_all

theorem pk_flagInv_run (m : Model) (keys : List String) (h : FlagInv m) :
    FlagInv (m.run keys) := by
  induction keys generalizing m with
  | nil => exact h
  | cons k ks ih => exact pk_run_cons m k ks ▸ ih (m.Update k) (pk_flagInv_update m k h)

theorem pk_idxInv_update (m : Model) (k : String) (hn : 0 < m.items.length)
    (h : IdxInv m) : IdxInv (m.Update k) := by
  unfold IdxInv at *
  rcases pk_update_cases m k with he | he | he | he | he | he <;> rw [he] <;> intro ht
  · exact h ht
  · have hb := h ht
    simp only
    constructor <;> split <;> omega
  · have hb := h ht
    simp only
    constructor <;> split <;> omega
  · simp at ht
  · simp at ht
  · simp at ht

theorem pk_idxInv_run (m : Model) (keys : List String) (hn : 0 < m.items.length)
    (h : IdxInv m) : IdxInv (m.run keys) := by
  induction keys generalizing m with
  | nil => exact h
  | cons k ks ih =>
    exact pk_run_cons m k ks ▸
      ih (m.Update k) (pk_update_items m k ▸ hn) (pk_idxInv_update m k hn h)

end Pick

namespace Input

/-- Flag discipline maintained by the TextInput transition function: while
running both flags are clear, and the quit flag is only ever set together with
the canceled flag. -/
def FlagInv (m : Model) : Prop :=
  (m.terminal = false → m.canceled = false ∧ m.quit = false) ∧
  (m.quit = true → m.canceled = true)

theorem inp_run_cons (m : Model) (k : String) (ks : List String) :
    m.run (k :: ks) = (m.Update k).run ks := rfl

/-- Every TextInput transition is one of: inert, confirm, cancel, or quit. -/
theorem inp_update_cases (m : Model) (k : String) :
    m.Update k = m ∨
    m.Update k = { m with canceled := false, quit := false, terminal := true } ∨
    m.Update k = { m with canceled := true, quit := false, terminal := true } ∨
    m.Update k = { m with canceled := true, quit := true, terminal := true } := by
  unfold Model.Update
  split
  · exact Or.inl rfl
  split
  · exact Or.inr (Or.inl rfl)
  split
  · exact Or.inr (Or.inr (Or.inl rfl))
  split
  · exact Or.inr (Or.inr (Or.inr rfl))
  · exact Or.inl rfl

theorem inp_flagInv_update (m : Model) (k : String) (h : FlagInv m) :
    FlagInv (m.Update k) := by
  unfold FlagInv at *
  rcases inp_update_cases m k with he | he | he | he <;> rw [he] <;> simp_all

theorem inp_flagInv_run (m : Model) (keys : List String) (h : FlagInv m) :
    FlagInv (m.run keys) := by
  induction keys generalizing m with
  | nil => exact h
  | cons k ks ih => exact inp_run_cons m k ks ▸ ih (m.Update k) (inp_flagInv_update m k h)

end Input

namespace Textarea

/-- Flag discipline maintained by the TextArea transition function: while
running both flags are clear, and the quit flag is only ever set together with
the canceled flag. -/
def FlagInv (m : Model) : Prop :=
  (m.terminal = false → m.canceled = false ∧ m.quit = false) ∧
  (m.quit = true → m.canceled = true)

theorem ta_run_cons (m : Model) (k : String) (ks : List String) :
    m.run (k :: ks) = (m.Update k).run ks := rfl

/-- Every TextArea transition is one of: inert, confirm-with-normalization,
normalize-only, cancel, or quit. -/
theorem ta_update_cases (m : Model) (k : String) :
    m.Update k = m ∨
    m.Update k = { m with
        value := String.mk (joinNL ((splitNL m.value.data).map trimSpace)),
        canceled := false, quit := false, terminal := true } ∨
    m.Update k = { m with
        value := String.mk (joinNL ((splitNL m.value.data).map trimSpace)) } ∨
    m.Update k = { m with canceled := true, quit := false, terminal := true } ∨
    m.Update k = { m with canceled := true, quit := true, terminal := true } := by
  unfold Model.Update
  split
  · exact Or.inl rfl
  split
  · dsimp only []
    split
    · exact Or.inr (Or.inl rfl)
    · exact Or.inr (Or.inr (Or.inl rfl))
  split
  · exact Or.inr (Or.inr (Or.inr (Or.inl rfl)))
  split
  · exact Or.inr (Or.inr (Or.inr (Or.inr rfl)))
  · exact Or.inl rfl

theorem ta_flagInv_update (m : Model) (k : String) (h : FlagInv m) :
    FlagInv (m.Update k) := by
  unfold FlagInv at *
  rcases ta_update_cases m k with he | he | he | he | he <;> rw [he] <;> simp_all

theorem ta_flagInv_run (m : Model) (keys : List String) (h : FlagInv m) :
    FlagInv (m.run keys) := by
  induction keys generalizing m with
  | nil => exact h
  | cons k ks ih => exact ta_run_cons m k ks ▸ ih (m.Update k) (ta_flagInv_update m k h)

end Textarea

/-! ### Claims -/

/-- Claim C1, counterexample: the resolver does not give quit precedence.  The
TextArea widget after `ctrl+c` has both flags set, and `ErrorOrValidate`
applied to it with a nil error returns `CanceledError`, not `QuitError` as the
claim requires. -/
theorem C1_counterexample :
    ((Textarea.New "x").Update "ctrl+c").canceled = true ∧
    ((Textarea.New "x").Update "ctrl+c").quit = true ∧
    ErrorOrValidate none
      ⟨((Textarea.New "x").Update "ctrl+c").canceled,
       ((Textarea.New "x").Update "ctrl+c").quit⟩ = some Err.canceledError ∧
    ErrorOrValidate none
      ⟨((Textarea.New "x").Update "ctrl+c").canceled,
       ((Textarea.New "x").Update "ctrl+c").quit⟩ ≠ some Err.quitError := by
  decide

/-- Claim C1 as amended: `ErrorOrValidate(err, widget)` returns the raw error
when `err` is non-nil; otherwise it returns `CanceledError` if `Canceled()` is
true, with cancel taking precedence over quit when both flags are set;
otherwise it returns `QuitError` if `Quit()` is true, and nil (success) when
neither flag is set. -/
theorem C1_theorem (err : Option Err) (m : StandardModel) :
    (∀ e, err = some e → ErrorOrValidate err m = some e) ∧
    (err = none → m.Canceled = true →
        ErrorOrValidate err m = some Err.canceledError) ∧
    (err = none → m.Canceled = false → m.Quit = true →
        ErrorOrValidate err m = some Err.quitError) ∧
    (err = none → m.Canceled = false → m.Quit = false →
        ErrorOrValidate err m = none) := by
  obtain ⟨c, q⟩ := m
  cases err <;> cases c <;> cases q <;> simp [ErrorOrValidate]

/-- Claim C1 witness: the amended resolver rule evaluated at a nil error and a
widget with both flags set. -/
theorem C1_witness : ErrorOrValidate none ⟨true, true⟩ = some Err.canceledError :=
  (C1_theorem none ⟨true, true⟩).2.1 rfl rfl

/-- Claim C2, counterexample: the List widget reaches a terminal state by
`ctrl+c` in which both `canceled` and `quit` are true, violating the claimed
"at most one flag" invariant. -/
theorem C2_counterexample :
    ((ListW.New 3).Update "ctrl+c").terminal = true ∧
    ((ListW.New 3).Update "ctrl+c").canceled = true ∧
    ((ListW.New 3).Update "ctrl+c").quit = true := by
  decide

/-- Claim C2 as amended: for every widget and every key sequence from a fresh
construction, both flags are false while the widget is non-terminal; in a
terminal state, for List, TextInput and TextArea the quit flag is only set
together with the canceled flag (so both are true after `ctrl+c`), while for
the Picker the two flags are never both true. -/
theorem C2_theorem :
    (∀ (m : ListW.Model) (keys : List String),
      m.canceled = false → m.quit = false → m.terminal = false →
      (((m.run keys).terminal = false →
          (m.run keys).canceled = false ∧ (m.run keys).quit = false) ∧
       ((m.run keys).quit = true → (m.run keys).canceled = true))) ∧
    (∀ (m : Input.Model) (keys : List String),
      m.canceled = false → m.quit = false → m.terminal = false →
      (((m.run keys).terminal = false →
          (m.run keys).canceled = false ∧ (m.run keys).quit = false) ∧
       ((m.run keys).quit = true → (m.run keys).canceled = true))) ∧
    (∀ (m : Textarea.Model) (keys : List String),
      m.canceled = false → m.quit = false → m.terminal = false →
      (((m.run keys).terminal = false →
          (m.run keys).canceled = false ∧ (m.run keys).quit = false) ∧
       ((m.run keys).quit = true → (m.run keys).canceled = true))) ∧
    (∀ (m : Pick.Model) (keys : List String),
      m.canceled = false → m.quit = false → m.terminal = false →
      (((m.run keys).terminal = false →
          (m.run keys).canceled = false ∧ (m.run keys).quit = false) ∧
       ¬((m.run keys).canceled = true ∧ (m.run keys).quit = true))) := by
  refine ⟨?_, ?_, ?_, ?_⟩
  · intro m keys hc hq _
    exact ListW.lw_flagInv_run m keys ⟨fun _ => ⟨hc, hq⟩, by simp [hq]⟩
  · intro m keys hc hq _
    exact Input.inp_flagInv_run m keys ⟨fun _ => ⟨hc, hq⟩, by simp [hq]⟩
  · intro m keys hc hq _
    exact Textarea.ta_flagInv_run m keys ⟨fun _ => ⟨hc, hq⟩, by simp [hq]⟩
  · intro m keys hc hq _
    exact Pick.pk_flagInv_run m keys ⟨fun _ => ⟨hc, hq⟩, by simp [hc]⟩

/-- Claim C2 witness: the amended invariant evaluated on a fresh List widget
run through `ctrl+c`: the quit flag forces the canceled flag. -/
theorem C2_witness : ((ListW.New 3).run ["ctrl+c"]).canceled = true :=
  (C2_theorem.1 (ListW.New 3) ["ctrl+c"] rfl rfl rfl).2 (by decide)

/-- Claim C3, counterexample: the Picker with its default `quitable=true`
reacts to `ctrl+c` with `canceled=false`, not `canceled=true` as the claim
states for every widget. -/
theorem C3_counterexample :
    (Pick.New ["a"]).quitable = true ∧
    ((Pick.New ["a"]).Update "ctrl+c").terminal = true ∧
    ((Pick.New ["a"]).Update "ctrl+c").quit = true ∧
    ((Pick.New ["a"]).Update "ctrl+c").canceled = false := by
  decide

/-- Claim C3 as amended: on a running widget with `quitable=true`, `ctrl+c`
yields a terminal state with `quit=true`, and `selectedIndex=-1` for
List/Picker; `canceled` is also set to true for List, TextInput and TextArea,
but to false for the Picker. -/
theorem C3_theorem :
    (∀ m : ListW.Model, m.terminal = false → m.quitable = true →
      (m.Update "ctrl+c").terminal = true ∧ (m.Update "ctrl+c").quit = true ∧
      (m.Update "ctrl+c").canceled = true ∧
      (m.Update "ctrl+c").selectedIdx = -1) ∧
    (∀ m : Input.Model, m.terminal = false → m.quitable = true →
      (m.Update "ctrl+c").terminal = true ∧ (m.Update "ctrl+c").quit = true ∧
      (m.Update "ctrl+c").canceled = true) ∧
    (∀ m : Textarea.Model, m.terminal = false → m.quitable = true →
      (m.Update "ctrl+c").terminal = true ∧ (m.Update "ctrl+c").quit = true ∧
      (m.Update "ctrl+c").canceled = true) ∧
    (∀ m : Pick.Model, m.terminal = false → m.quitable = true →
      (m.Update "ctrl+c").terminal = true ∧ (m.Update "ctrl+c").quit = true ∧
      (m.Update "ctrl+c").canceled = false ∧
      (m.Update "ctrl+c").selectedIdx = -1) := by
  refine ⟨?_, ?_, ?_, ?_⟩ <;> intro m ht hq <;>
    simp [ListW.Model.Update, Input.Model.Update, Textarea.Model.Update,
      Pick.Model.Update, ht, hq]

/-- Claim C3 witness: the amended `ctrl+c` rule evaluated on a fresh Picker. -/
theorem C3_witness :
    ((Pick.New ["a", "b"]).Update "ctrl+c").terminal = true ∧
    ((Pick.New ["a", "b"]).Update "ctrl+c").quit = true ∧
    ((Pick.New ["a", "b"]).Update "ctrl+c").canceled = false ∧
    ((Pick.New ["a", "b"]).Update "ctrl+c").selectedIdx = -1 :=
  C3_theorem.2.2.2 (Pick.New ["a", "b"]) rfl rfl

/-- Claim C4, counterexample: a TextArea constructed with `cancelable=false`
still reaches a terminal canceled state on `esc`; in the source the TextArea
`esc` branch never consults the cancelable flag. -/
theorem C4_counterexample :
    ((Textarea.New "x").WithCancel false).cancelable = false ∧
    ((((Textarea.New "x").WithCancel false).Update "esc").terminal = true) ∧
    ((((Textarea.New "x").WithCancel false).Update "esc").canceled = true) := by
  decide

/-- Claim C4 as amended: for List and Picker widgets with `cancelable=false`,
`esc` never yields a terminal state; TextInput and TextArea both always cancel
on `esc` regardless of the cancelable flag. -/
theorem C4_theorem :
    (∀ m : ListW.Model, m.terminal = false → m.cancelable = false →
      (m.Update "esc").terminal = false) ∧
    (∀ m : Pick.Model, m.terminal = false → m.cancelable = false →
      (m.Update "esc").terminal = false) ∧
    (∀ m : Input.Model, m.terminal = false →
      (m.Update "esc").terminal = true ∧ (m.Update "esc").canceled = true ∧
      (m.Update "esc").quit = false) ∧
    (∀ m : Textarea.Model, m.terminal = false →
      (m.Update "esc").terminal = true ∧ (m.Update "esc").canceled = true ∧
      (m.Update "esc").quit = false) := by
  refine ⟨?_, ?_, ?_, ?_⟩
  · intro m ht hc
    simp [ListW.Model.Update, ht, hc]
  · intro m ht hc
    simp [Pick.Model.Update, ht, hc]
  · intro m ht
    simp [Input.Model.Update, ht]
  · intro m ht
    simp [Textarea.Model.Update, ht]

/-- Claim C4 witness: the amended `esc` rule evaluated on a non-cancelable
Picker, which stays running. -/
theorem C4_witness :
    (((Pick.New ["a"]).WithCancel false).Update "esc").terminal = false :=
  C4_theorem.2.1 ((Pick.New ["a"]).WithCancel false) rfl rfl

/-- Claim C5: on a running widget with `cancelable=true`, `esc` yields a
terminal state with `canceled=true` and `quit=false`, and `selectedIndex=-1`
for List/Picker. -/
theorem C5_theorem :
    (∀ m : ListW.Model, m.terminal = false → m.cancelable = true →
      (m.Update "esc").terminal = true ∧ (m.Update "esc").canceled = true ∧
      (m.Update "esc").quit = false ∧ (m.Update "esc").selectedIdx = -1) ∧
    (∀ m : Pick.Model, m.terminal = false → m.cancelable = true →
      (m.Update "esc").terminal = true ∧ (m.Update "esc").canceled = true ∧
      (m.Update "esc").quit = false ∧ (m.Update "esc").selectedIdx = -1) ∧
    (∀ m : Input.Model, m.terminal = false → m.cancelable = true →
      (m.Update "esc").terminal = true ∧ (m.Update "esc").canceled = true ∧
      (m.Update "esc").quit = false) ∧
    (∀ m : Textarea.Model, m.terminal = false → m.cancelable = true →
      (m.Update "esc").terminal = true ∧ (m.Update "esc").canceled = true ∧
      (m.Update "esc").quit = false) := by
  refine ⟨?_, ?_, ?_, ?_⟩ <;> intro m ht hc <;>
    simp [ListW.Model.Update, Input.Model.Update, Textarea.Model.Update,
      Pick.Model.Update, ht, hc]

/-- Claim C5 witness: the `esc` rule evaluated on a fresh (cancelable)
Picker. -/
theorem C5_witness :
    ((Pick.New ["a", "b"]).Update "esc").terminal = true ∧
    ((Pick.New ["a", "b"]).Update "esc").canceled = true ∧
    ((Pick.New ["a", "b"]).Update "esc").quit = false ∧
    ((Pick.New ["a", "b"]).Update "esc").selectedIdx = -1 :=
  C5_theorem.2.1 (Pick.New ["a", "b"]) rfl rfl

/-- Claim C6: on a running TextArea, `enter` first replaces the stored value by
the newline-join of its whitespace-trimmed lines, and then terminates in a
confirmed state (canceled=false, quit=false) exactly when the trimmed last
line is empty; otherwise the widget stays non-terminal with unchanged flags
and the normalized value stored. -/
theorem C6_theorem (m : Textarea.Model) (ht : m.terminal = false) :
    (m.Update "enter").value =
      String.mk (joinNL ((splitNL m.value.data).map trimSpace)) ∧
    ((m.Update "enter").terminal = true ↔
      ((splitNL m.value.data).map trimSpace).getLastD [] = []) ∧
    ((m.Update "enter").terminal = true →
      (m.Update "enter").canceled = false ∧ (m.Update "enter").quit = false) ∧
    ((m.Update "enter").terminal = false →
      (m.Update "enter").canceled = m.canceled ∧
      (m.Update "enter").quit = m.quit) := by
  have hlen : 0 < ((splitNL m.value.data).map trimSpace).length := by
    simp [List.length_pos, splitNL_ne_nil]
  unfold Textarea.Model.Update
  rw [if_neg (by simp [ht]), if_pos rfl]
  dsimp only []
  by_cases hlast : ((splitNL m.value.data).map trimSpace).getLastD [] = []
  · rw [if_pos ⟨hlen, hlast⟩]
    exact ⟨rfl, ⟨fun _ => hlast, fun _ => rfl⟩, fun _ => ⟨rfl, rfl⟩,
      fun h => nomatch h⟩
  · rw [if_neg (fun hc => hlast hc.2)]
    exact ⟨rfl,
      ⟨fun h => absurd (ht.symm.trans h) Bool.false_ne_true,
       fun h => absurd h hlast⟩,
      fun h => absurd (ht.symm.trans h) Bool.false_ne_true,
      fun _ => ⟨rfl, rfl⟩⟩

/-- Claim C6 witness: the `enter` rule on a value with a trailing blank line
terminates and keeps the normalized value, matching the spec's round-trip
example. -/
theorem C6_witness :
    ((Textarea.New "a\n").Update "enter").terminal = true ∧
    ((Textarea.New "a\n").Update "enter").value = "a\n" := by
  have h := C6_theorem (Textarea.New "a\n") rfl
  exact ⟨h.2.1.mpr (by decide), h.1.trans (by decide)⟩

/-- Claim C7: Picker navigation is cyclic: on a running Picker with N>0 items,
`down` from index N-1 moves to 0 and `up` from index 0 moves to N-1; from any
other in-range index, `down` moves to the next index and `up` to the previous
one. -/
theorem C7_theorem (m : Pick.Model) (ht : m.terminal = false)
    (hn : 0 < m.items.length) :
    (m.selectedIdx = (m.items.length : Int) - 1 →
      (m.Update "down").selectedIdx = 0) ∧
    (m.selectedIdx = 0 →
      (m.Update "up").selectedIdx = (m.items.length : Int) - 1) ∧
    (0 ≤ m.selectedIdx → m.selectedIdx < (m.items.length : Int) - 1 →
      (m.Update "down").selectedIdx = m.selectedIdx + 1) ∧
    (0 < m.selectedIdx → m.selectedIdx < (m.items.length : Int) →
      (m.Update "up").selectedIdx = m.selectedIdx - 1) := by
  refine ⟨?_, ?_, ?_, ?_⟩ <;>
    (intros; simp [Pick.Model.Update, ht]; omega)

/-- Claim C7 witness: wraparound evaluated on a three-item Picker positioned
at the last index. -/
theorem C7_witness :
    (((Pick.New ["a", "b", "c"]).WithSelectedIndex 2).Update "down").selectedIdx
      = 0 :=
  (C7_theorem ((Pick.New ["a", "b", "c"]).WithSelectedIndex 2) rfl
    (by decide)).1 (by decide)

theorem Pick.pk_withSelectedIndex_bounds (m : Pick.Model) (i : Int)
    (hn : 0 < m.items.length) :
    0 ≤ (m.WithSelectedIndex i).selectedIdx ∧
    (m.WithSelectedIndex i).selectedIdx < (m.items.length : Int) := by
  unfold Pick.Model.WithSelectedIndex
  dsimp only []
  refine ⟨?_, ?_⟩ <;> (repeat' split) <;> omega

theorem ListW.lw_withSelectedIndex_bounds (m : ListW.Model) (i : Int)
    (hn : 0 < m.itemCount) :
    0 ≤ (m.WithSelectedIndex i).index ∧
    (m.WithSelectedIndex i).index < (m.itemCount : Int) := by
  unfold ListW.Model.WithSelectedIndex
  dsimp only []
  refine ⟨?_, ?_⟩ <;> (repeat' split) <;> omega

theorem Pick.pk_run_items (m : Pick.Model) (keys : List String) :
    (m.run keys).items = m.items := by
  induction keys generalizing m with
  | nil => rfl
  | cons k ks ih => rw [Pick.pk_run_cons, ih, Pick.pk_update_items]

theorem ListW.lw_run_itemCount (m : ListW.Model) (keys : List String) :
    (m.run keys).itemCount = m.itemCount := by
  induction keys generalizing m with
  | nil => rfl
  | cons k ks ih => rw [ListW.lw_run_cons, ih, ListW.lw_update_itemCount]

/-- Claim C8: for List and Picker widgets over N>0 items, the selection index
(the Picker's `selectedIdx`, the List's bubbles cursor) starts in range under
every construction — `WithSelectedIndex` clamps — and stays in `[0, N-1]`
after any key sequence under which the widget has not terminated. -/
theorem C8_theorem :
    (∀ (m : Pick.Model) (keys : List String), 0 < m.items.length →
      m.terminal = false → 0 ≤ m.selectedIdx →
      m.selectedIdx < (m.items.length : Int) →
      (m.run keys).terminal = false →
      0 ≤ (m.run keys).selectedIdx ∧
      (m.run keys).selectedIdx < (m.items.length : Int)) ∧
    (∀ (items : List String) (i : Int), items ≠ [] →
      0 ≤ ((Pick.New items).WithSelectedIndex i).selectedIdx ∧
      ((Pick.New items).WithSelectedIndex i).selectedIdx
        < (items.length : Int)) ∧
    (∀ (m : ListW.Model) (keys : List String), 0 < m.itemCount →
      m.terminal = false → 0 ≤ m.index → m.index < (m.itemCount : Int) →
      (m.run keys).terminal = false →
      0 ≤ (m.run keys).index ∧ (m.run keys).index < (m.itemCount : Int)) ∧
    (∀ (n : Nat) (i : Int), 0 < n →
      0 ≤ ((ListW.New n).WithSelectedIndex i).index ∧
      ((ListW.New n).WithSelectedIndex i).index < (n : Int)) := by
  refine ⟨?_, ?_, ?_, ?_⟩
  · intro m keys hn _ h0 h1 hrt
    have hb := Pick.pk_idxInv_run m keys hn (fun _ => ⟨h0, h1⟩) hrt
    rwa [Pick.pk_run_items] at hb
  · intro items i hne
    exact Pick.pk_withSelectedIndex_bounds (Pick.New items) i
      (List.length_pos.mpr hne)
  · intro m keys hn _ h0 h1 hrt
    have hb := ListW.lw_idxInv_run m keys hn (fun _ => ⟨h0, h1⟩) hrt
    rwa [ListW.lw_run_itemCount] at hb
  · intro n i hn
    exact ListW.lw_withSelectedIndex_bounds (ListW.New n) i hn

/-- Claim C8 witness: a two-item Picker run through three navigation keys
stays in range. -/
theorem C8_witness :
    0 ≤ ((Pick.New ["a", "b"]).run ["up", "down", "down"]).selectedIdx ∧
    ((Pick.New ["a", "b"]).run ["up", "down", "down"]).selectedIdx <
      ((Pick.New ["a", "b"]).items.length : Int) :=
  C8_theorem.1 (Pick.New ["a", "b"]) ["up", "down", "down"]
    (by decide) rfl (by decide) (by decide) (by decide)

/-- Claim C9: for List and Picker builders over N>0 items,
`WithSelectedIndex(i)` clamps its argument: the resulting selection index is 0
when i < 0, N-1 when i > N-1, and i otherwise; it is always in range. -/
theorem C9_theorem :
    (∀ (m : Pick.Model) (i : Int), 0 < m.items.length →
      ((i < 0 → (m.WithSelectedIndex i).selectedIdx = 0) ∧
       ((m.items.length : Int) - 1 < i →
         (m.WithSelectedIndex i).selectedIdx = (m.items.length : Int) - 1) ∧
       (0 ≤ i → i ≤ (m.items.length : Int) - 1 →
         (m.WithSelectedIndex i).selectedIdx = i) ∧
       (0 ≤ (m.WithSelectedIndex i).selectedIdx ∧
        (m.WithSelectedIndex i).selectedIdx < (m.items.length : Int)))) ∧
    (∀ (m : ListW.Model) (i : Int), 0 < m.itemCount →
      ((i < 0 → (m.WithSelectedIndex i).index = 0) ∧
       ((m.itemCount : Int) - 1 < i →
         (m.WithSelectedIndex i).index = (m.itemCount : Int) - 1) ∧
       (0 ≤ i → i ≤ (m.itemCount : Int) - 1 →
         (m.WithSelectedIndex i).index = i) ∧
       (0 ≤ (m.WithSelectedIndex i).index ∧
        (m.WithSelectedIndex i).index < (m.itemCount : Int)))) := by
  constructor
  · intro m i hn
    refine ⟨?_, ?_, ?_, Pick.pk_withSelectedIndex_bounds m i hn⟩ <;>
      (intros; unfold Pick.Model.WithSelectedIndex; dsimp only [];
        (repeat' split) <;> omega)
  · intro m i hn
    refine ⟨?_, ?_, ?_, ListW.lw_withSelectedIndex_bounds m i hn⟩ <;>
      (intros; unfold ListW.Model.WithSelectedIndex; dsimp only [];
        (repeat' split) <;> omega)

/-- Claim C9 witness: clamping of an over-large initial index on a three-item
Picker. -/
theorem C9_witness :
    ((Pick.New ["a", "b", "c"]).WithSelectedIndex 7).selectedIdx =
      (((Pick.New ["a", "b", "c"]).items.length : Int)) - 1 :=
  (C9_theorem.1 (Pick.New ["a", "b", "c"]) 7 (by decide)).2.1 (by decide)

/-- Claim C10: the Picker's `SelectedItem()` is total: it returns the item at
`selectedIdx` when that index is in bounds and the empty string otherwise — in
particular after `esc` or `ctrl+c` has set `selectedIdx` to -1 — and never
indexes out of bounds. -/
theorem C10_theorem (m : Pick.Model) :
    (0 ≤ m.selectedIdx ∧ m.selectedIdx < (m.items.length : Int) →
      m.SelectedItem = m.items.getD m.selectedIdx.toNat "") ∧
    (¬(0 ≤ m.selectedIdx ∧ m.selectedIdx < (m.items.length : Int)) →
      m.SelectedItem = "") ∧
    (m.terminal = false → m.cancelable = true →
      (m.Update "esc").SelectedItem = "") ∧
    (m.terminal = false → m.quitable = true →
      (m.Update "ctrl+c").SelectedItem = "") := by
  refine ⟨?_, ?_, ?_, ?_⟩
  · intro h
    unfold Pick.Model.SelectedItem
    rw [if_pos h]
  · intro h
    unfold Pick.Model.SelectedItem
    rw [if_neg h]
  · intro ht hc
    simp [Pick.Model.Update, Pick.Model.SelectedItem, ht, hc]
  · intro ht hq
    simp [Pick.Model.Update, Pick.Model.SelectedItem, ht, hq]

/-- Claim C10 witness: after cancel the Picker's accessor returns the empty
string. -/
theorem C10_witness : ((Pick.New ["a", "b"]).Update "esc").SelectedItem = "" :=
  (C10_theorem (Pick.New ["a", "b"])).2.2.1 rfl rfl

end GoUI
